import Mathlib

/-!
# Jaga-pohon — verification of the tree-inventory core

Shallow embedding of the Jaga-pohon browser tree-inventory application:
the data model (`types`), the seed dataset (`src/constants.ts`) and the
inventory / auth / bulk-upload handlers of `src/App.tsx`.

TypeScript numbers are modelled as exact rationals (`ℚ`).  The estimator
modules (`services/carbonCalculator`, `services/ecosystemServiceCalculator`)
are not part of the repository snapshot; they are modelled from the spec
(section 4.1), as marked on each definition.
-/

namespace JagaPohon

/-- `TreeCondition` enum from `types`: values `'Sehat'`, `'Rusak'`, `'Mati'`. -/
inductive TreeCondition
  | HEALTHY
  | DAMAGED
  | DEAD
deriving DecidableEq, Repr

/-- String value carried by each `TreeCondition` enum member in `types`. -/
def TreeCondition.toStr : TreeCondition → String
  | .HEALTHY => "Sehat"
  | .DAMAGED => "Rusak"
  | .DEAD => "Mati"

/-- Inverse of `TreeCondition.toStr`, used when decoding persisted JSON. -/
def TreeCondition.ofStr : String → Option TreeCondition
  | "Sehat" => some .HEALTHY
  | "Rusak" => some .DAMAGED
  | "Mati" => some .DEAD
  | _ => none

/-- `ProximityToBuilding` union type from `types`: `'None' | 'Near' | 'Far'`. -/
inductive ProximityToBuilding
  | NoneP
  | Near
  | Far
deriving DecidableEq, Repr

/-- String value of each `ProximityToBuilding` alternative. -/
def ProximityToBuilding.toStr : ProximityToBuilding → String
  | .NoneP => "None"
  | .Near => "Near"
  | .Far => "Far"

/-- Inverse of `ProximityToBuilding.toStr`. -/
def ProximityToBuilding.ofStr : String → Option ProximityToBuilding
  | "None" => some .NoneP
  | "Near" => some .Near
  | "Far" => some .Far
  | _ => none

/-- `CarbonMetrics` interface from `types` (all quantities in kg). -/
structure CarbonMetrics where
  biomass : ℚ
  carbonStored : ℚ
  co2Sequestrated : ℚ
deriving DecidableEq, Repr

/-- The `annualMonetaryValue` sub-object of `EcosystemServices` in `types`. -/
structure AnnualMonetaryValue where
  total : ℚ
  carbon : ℚ
  stormwater : ℚ
  airQuality : ℚ
  energy : ℚ
deriving DecidableEq, Repr

/-- `EcosystemServices` interface from `types`. -/
structure EcosystemServices where
  stormwaterInterceptedLiters : ℚ
  airPollutionRemovedGrams : ℚ
  energySavingsIDR : ℚ
  annualMonetaryValue : AnnualMonetaryValue
deriving DecidableEq, Repr

/-- Modelled from the spec: the condition-dependent health factor scaling the
allometric biomass equation (spec section 4.1).  The exact constants are
implementation-specific (spec section 9); representative non-negative values
are fixed here. -/
def healthFactor : TreeCondition → ℚ
  | .HEALTHY => 1
  | .DAMAGED => 7/10
  | .DEAD => 0

/-- Modelled from the spec: `calculateCarbonMetrics` of
`services/carbonCalculator` (missing from the snapshot).  Spec section 4.1:
an allometric biomass equation over (dbh, height) scaled by the
condition-dependent health factor, a fixed carbon fraction of biomass, and
the stoichiometric CO2/C ratio; out-of-range (non-positive) inputs are
clamped to zero, producing degenerate zero output rather than failing. -/
def calculateCarbonMetrics (dbh height : ℚ) (condition : TreeCondition) :
    CarbonMetrics :=
  let d := max dbh 0
  let h := max height 0
  let biomass := (1/4) * d^2 * h * healthFactor condition
  let carbonStored := (1/2) * biomass
  let co2Sequestrated := (44/12) * carbonStored
  { biomass := biomass
    carbonStored := carbonStored
    co2Sequestrated := co2Sequestrated }

/-- Modelled from the spec: the energy-savings rate keyed by proximity to a
building (spec section 4.1, "linear/lookup relations ... keyed by
proximity"); constants are representative non-negative values. -/
def energyRate : ProximityToBuilding → ℚ
  | .NoneP => 0
  | .Near => 50000
  | .Far => 20000

/-- Modelled from the spec: `calculateEcosystemServices` of
`services/ecosystemServiceCalculator` (missing from the snapshot).  Spec
section 4.1: linear/lookup relations over dbh keyed by proximity and
condition for stormwater, air quality and energy savings; the annual
monetary value satisfies total = carbon + stormwater + airQuality + energy
(spec section 3).  Its call sites in `src/App.tsx` and `src/constants.ts`
pass exactly `(dbh, proximityToBuilding, condition)` — height is not an
argument.  Non-positive dbh is clamped to zero. -/
def calculateEcosystemServices (dbh : ℚ)
    (proximityToBuilding : ProximityToBuilding)
    (condition : TreeCondition) : EcosystemServices :=
  let d := max dbh 0
  let hf := healthFactor condition
  let stormwaterInterceptedLiters := 60 * d * hf
  let airPollutionRemovedGrams := 12 * d * hf
  let energySavingsIDR := energyRate proximityToBuilding * d * hf
  let carbonValue := 1500 * d * hf
  let stormwaterValue := 25 * stormwaterInterceptedLiters
  let airQualityValue := 110 * airPollutionRemovedGrams
  { stormwaterInterceptedLiters := stormwaterInterceptedLiters
    airPollutionRemovedGrams := airPollutionRemovedGrams
    energySavingsIDR := energySavingsIDR
    annualMonetaryValue :=
      { total := carbonValue + stormwaterValue + airQualityValue +
          energySavingsIDR
        carbon := carbonValue
        stormwater := stormwaterValue
        airQuality := airQualityValue
        energy := energySavingsIDR } }

/-- `TreeData` interface from `types`. -/
structure TreeData where
  id : ℚ
  species : String
  dbh : ℚ
  height : ℚ
  condition : TreeCondition
  proximityToBuilding : ProximityToBuilding
  notes : String
  photo : String
  latitude : ℚ
  longitude : ℚ
  inventoryDate : String
  carbon : CarbonMetrics
  ecosystemServices : EcosystemServices
deriving DecidableEq, Repr

/-- `Omit<TreeData, 'id' | 'carbon' | 'ecosystemServices'>`, the argument
type of `handleAddTree` in `src/App.tsx`. -/
structure NewTreeData where
  species : String
  dbh : ℚ
  height : ℚ
  condition : TreeCondition
  proximityToBuilding : ProximityToBuilding
  notes : String
  photo : String
  latitude : ℚ
  longitude : ℚ
  inventoryDate : String
deriving DecidableEq, Repr

/-- A stored record has its derived fields equal to the estimator applied to
its own measurement fields (spec section 3 invariant). -/
def derivedConsistent (t : TreeData) : Prop :=
  t.carbon = calculateCarbonMetrics t.dbh t.height t.condition ∧
  t.ecosystemServices =
    calculateEcosystemServices t.dbh t.proximityToBuilding t.condition

/-- The `newTree` record built inside `handleAddTree` (`src/App.tsx` lines
212-220): the submitted fields plus a fresh identifier (`Date.now()`,
supplied here as a parameter) and the two recomputed derived fields. -/
def mkNewTree (newTreeData : NewTreeData) (freshId : ℚ) : TreeData :=
  let carbonMetrics := calculateCarbonMetrics newTreeData.dbh
    newTreeData.height newTreeData.condition
  let ecosystemServices := calculateEcosystemServices newTreeData.dbh
    newTreeData.proximityToBuilding newTreeData.condition
  { id := freshId
    species := newTreeData.species
    dbh := newTreeData.dbh
    height := newTreeData.height
    condition := newTreeData.condition
    proximityToBuilding := newTreeData.proximityToBuilding
    notes := newTreeData.notes
    photo := newTreeData.photo
    latitude := newTreeData.latitude
    longitude := newTreeData.longitude
    inventoryDate := newTreeData.inventoryDate
    carbon := carbonMetrics
    ecosystemServices := ecosystemServices }

/-- `handleAddTree` (`src/App.tsx` lines 212-223) acting on the `trees`
state: `setTrees(prevTrees => [newTree, ...prevTrees])`. -/
def handleAddTree (newTreeData : NewTreeData) (freshId : ℚ)
    (prevTrees : List TreeData) : List TreeData :=
  mkNewTree newTreeData freshId :: prevTrees

/-- The `finalTree` record built inside `handleUpdateTree` (`src/App.tsx`
lines 299-306): the edited record with both derived fields recomputed from
its measurement fields. -/
def updateFinalTree (updatedTree : TreeData) : TreeData :=
  let carbonMetrics := calculateCarbonMetrics updatedTree.dbh
    updatedTree.height updatedTree.condition
  let ecosystemServices := calculateEcosystemServices updatedTree.dbh
    updatedTree.proximityToBuilding updatedTree.condition
  { updatedTree with
    carbon := carbonMetrics
    ecosystemServices := ecosystemServices }

/-- `handleUpdateTree` (`src/App.tsx` lines 298-312) acting on the `trees`
state: `prevTrees.map(t => t.id === finalTree.id ? finalTree : t)`. -/
def handleUpdateTree (updatedTree : TreeData)
    (prevTrees : List TreeData) : List TreeData :=
  let finalTree := updateFinalTree updatedTree
  prevTrees.map (fun t => if t.id = finalTree.id then finalTree else t)

/-- `createTree` from `src/constants.ts` lines 7-37.  The
`new Date(date).toISOString()` normalisation of the browser `Date` built-in
is modelled as the identity (every seed date string is already ISO-8601;
no claim inspects the timestamp). -/
def createTree (id : ℚ) (species : String) (dbh height : ℚ)
    (condition : TreeCondition) (proximityToBuilding : ProximityToBuilding)
    (notes photoSeed : String) (latitude longitude : ℚ)
    (date : String) : TreeData :=
  let carbon := calculateCarbonMetrics dbh height condition
  let ecosystemServices := calculateEcosystemServices dbh
    proximityToBuilding condition
  { id := id
    species := species
    dbh := dbh
    height := height
    condition := condition
    proximityToBuilding := proximityToBuilding
    notes := notes
    photo := "https://picsum.photos/seed/" ++ photoSeed ++ "/400/300"
    latitude := latitude
    longitude := longitude
    inventoryDate := date
    carbon := carbon
    ecosystemServices := ecosystemServices }

/-- `initialTrees` from `src/constants.ts` lines 40-79: the three-record
seed dataset. -/
def initialTrees : List TreeData :=
  [ createTree 1 "Jati" 60 25 .HEALTHY .Near
      "Pohon jati tua yang megah di taman utama, memberikan keteduhan yang luar biasa."
      "oak" (340522/10000) (-1182437/10000) "2023-10-26T10:00:00Z",
    createTree 2 "Pinus" 45 30 .HEALTHY .Far
      "Pohon pinus tinggi di dekat sungai."
      "pine" (34055/1000) (-118245/1000) "2023-10-26T11:30:00Z",
    createTree 3 "Mapel" 50 22 .DAMAGED .Near
      "Cabang patah akibat badai baru-baru ini. Memberikan keteduhan pada bangku di dekatnya."
      "maple" (34051/1000) (-11824/100) "2023-10-27T09:00:00Z" ]

/-- `TreeAnalysisResult` from `types`: the structured guess returned by the
external vision model.  JavaScript truthiness on these fields is modelled
by comparison with `""` / `0` where `handleBulkUpload` tests them. -/
structure TreeAnalysisResult where
  species : String
  latitude : ℚ
  longitude : ℚ
  condition : TreeCondition
  estimatedDbh : ℚ
  estimatedHeight : ℚ
deriving DecidableEq, Repr

/-- The external world seen by one iteration of the `handleBulkUpload` loop
(`src/App.tsx` lines 229-287): the file name, the result of the awaited
`compressImage` call, the result of the awaited `analyzeTreeImage` call
(which may reject, or resolve to `null`), the result of the awaited
geolocation request, and the fresh identifier `Date.now() + Math.random()`
and timestamp `new Date().toISOString()` drawn during the iteration. -/
structure BulkFileEnv where
  name : String
  compressResult : Except String String
  analysisResult : Except String (Option TreeAnalysisResult)
  geo : Except String (ℚ × ℚ)
  freshId : ℚ
  inventoryDate : String
deriving Repr

/-- The `try` block of one `handleBulkUpload` iteration (`src/App.tsx` lines
230-278): compress, analyse, validate species and dimension estimates, fall
back to device geolocation when the API omitted (falsy) coordinates, and on
success build the new record with both derived fields computed by the
estimator.  `Except.error` carries the thrown message. -/
def processFile (env : BulkFileEnv) : Except String TreeData :=
  match env.compressResult with
  | .error e => .error e
  | .ok compressedBase64 =>
    match env.analysisResult with
    | .error e => .error e
    | .ok none => .error "AI tidak dapat mengidentifikasi pohon."
    | .ok (some analysisResult) =>
      if analysisResult.species = "" ∨
          analysisResult.species = "Tidak Diketahui" then
        .error "AI tidak dapat mengidentifikasi pohon."
      else if analysisResult.estimatedDbh = 0 ∨
          analysisResult.estimatedHeight = 0 then
        .error "AI tidak dapat mengestimasi dimensi."
      else
        let coords : Except String (ℚ × ℚ) :=
          if analysisResult.latitude = 0 ∨ analysisResult.longitude = 0 then
            match env.geo with
            | .ok position => .ok position
            | .error _ =>
                .error "AI tidak menemukan GPS & akses lokasi ditolak."
          else .ok (analysisResult.latitude, analysisResult.longitude)
        match coords with
        | .error e => .error e
        | .ok (latitude, longitude) =>
          let carbonMetrics := calculateCarbonMetrics
            analysisResult.estimatedDbh analysisResult.estimatedHeight
            analysisResult.condition
          let ecosystemServices := calculateEcosystemServices
            analysisResult.estimatedDbh .NoneP analysisResult.condition
          .ok
            { id := env.freshId
              species := analysisResult.species
              dbh := analysisResult.estimatedDbh
              height := analysisResult.estimatedHeight
              condition := analysisResult.condition
              proximityToBuilding := .NoneP
              notes := "Ditambahkan melalui unggahan massal."
              photo := compressedBase64
              latitude := latitude
              longitude := longitude
              inventoryDate := env.inventoryDate
              carbon := carbonMetrics
              ecosystemServices := ecosystemServices }

/-- `BulkUploadProgress` interface from `src/App.tsx` lines 108-113. -/
structure BulkUploadProgress where
  total : ℕ
  processed : ℕ
  successes : ℕ
  failures : List (String × String)
deriving DecidableEq, Repr

/-- One full iteration of the `handleBulkUpload` loop including its `catch`
clause (append `(fileName, err.message || default)` to the failures) and
its `finally` clause (`processed + 1`), acting on the `(trees, progress)`
state. -/
def bulkStep (st : List TreeData × BulkUploadProgress) (env : BulkFileEnv) :
    List TreeData × BulkUploadProgress :=
  match processFile env with
  | .ok newTree =>
      (newTree :: st.1,
        { st.2 with
          successes := st.2.successes + 1
          processed := st.2.processed + 1 })
  | .error e =>
      let msg := if e = "" then "Terjadi kesalahan tidak diketahui." else e
      (st.1,
        { st.2 with
          failures := st.2.failures ++ [(env.name, msg)]
          processed := st.2.processed + 1 })

/-- `handleBulkUpload` (`src/App.tsx` lines 225-288): initialise the
progress record to `{total: N, processed: 0, successes: 0, failures: []}`
and process the files strictly sequentially, left to right. -/
def handleBulkUpload (files : List BulkFileEnv)
    (prevTrees : List TreeData) : List TreeData × BulkUploadProgress :=
  files.foldl bulkStep
    (prevTrees,
      { total := files.length, processed := 0, successes := 0,
        failures := [] })

/-- The hardcoded admin password from `src/App.tsx` line 8. -/
def ADMIN_PASSWORD : String := "jaga-pohon-admin"

/-- The authentication state of the `App` component: the session-storage
`isLoggedIn` key and the `isAuthenticated` React flag. -/
structure AuthState where
  isLoggedIn : Option String
  isAuthenticated : Bool
deriving DecidableEq, Repr

/-- `handleLogin` (`src/App.tsx` lines 27-41): on the correct password set
the session key to `'true'`, set the authenticated flag and return `true`;
otherwise leave all state untouched and return `false`. -/
def handleLogin (password : String) (s : AuthState) : AuthState × Bool :=
  if password = ADMIN_PASSWORD then
    ({ isLoggedIn := some "true", isAuthenticated := true }, true)
  else
    (s, false)

/-- `handleLogout` (`src/App.tsx` lines 43-50): remove the session key and
clear the authenticated flag. -/
def handleLogout (_s : AuthState) : AuthState :=
  { isLoggedIn := none, isAuthenticated := false }

/-- The session-check effect (`src/App.tsx` lines 14-25): on load, set the
authenticated flag iff the stored session value is the string `'true'`. -/
def sessionCheck (s : AuthState) : AuthState :=
  { s with isAuthenticated := decide (s.isLoggedIn = some "true") }

/-- JSON documents, as produced by the browser `JSON` built-ins. -/
inductive Json
  | null
  | bool (b : Bool)
  | num (q : ℚ)
  | str (s : String)
  | arr (items : List Json)
  | obj (fields : List (String × Json))

/-- What `localStorage.getItem('treeInventoryData')` followed by
`JSON.parse` yields: the key is absent, or holds a string that fails to
parse, or holds a string that parses to a JSON document. -/
inductive StoredValue
  | absent
  | malformed (raw : String)
  | parsed (j : Json)

/-- JSON encoding of a `CarbonMetrics` object under `JSON.stringify`. -/
def encodeCarbon (c : CarbonMetrics) : Json :=
  .obj [("biomass", .num c.biomass),
        ("carbonStored", .num c.carbonStored),
        ("co2Sequestrated", .num c.co2Sequestrated)]

/-- JSON encoding of an `EcosystemServices` object under `JSON.stringify`. -/
def encodeEco (e : EcosystemServices) : Json :=
  .obj [("stormwaterInterceptedLiters", .num e.stormwaterInterceptedLiters),
        ("airPollutionRemovedGrams", .num e.airPollutionRemovedGrams),
        ("energySavingsIDR", .num e.energySavingsIDR),
        ("annualMonetaryValue", .obj
          [("total", .num e.annualMonetaryValue.total),
           ("carbon", .num e.annualMonetaryValue.carbon),
           ("stormwater", .num e.annualMonetaryValue.stormwater),
           ("airQuality", .num e.annualMonetaryValue.airQuality),
           ("energy", .num e.annualMonetaryValue.energy)])]

/-- JSON encoding of a `TreeData` record under `JSON.stringify`, with the
fields in the canonical `types` interface order. -/
def encodeTree (t : TreeData) : Json :=
  .obj [("id", .num t.id),
        ("species", .str t.species),
        ("dbh", .num t.dbh),
        ("height", .num t.height),
        ("condition", .str t.condition.toStr),
        ("proximityToBuilding", .str t.proximityToBuilding.toStr),
        ("notes", .str t.notes),
        ("photo", .str t.photo),
        ("latitude", .num t.latitude),
        ("longitude", .num t.longitude),
        ("inventoryDate", .str t.inventoryDate),
        ("carbon", encodeCarbon t.carbon),
        ("ecosystemServices", encodeEco t.ecosystemServices)]

/-- Decoder inverting `encodeTree` on exactly the documents it produces. -/
def decodeTree : Json → Option TreeData
  | .obj [("id", .num id), ("species", .str species), ("dbh", .num dbh),
          ("height", .num height), ("condition", .str condStr),
          ("proximityToBuilding", .str proxStr), ("notes", .str notes),
          ("photo", .str photo), ("latitude", .num latitude),
          ("longitude", .num longitude), ("inventoryDate", .str date),
          ("carbon", .obj [("biomass", .num biomass),
            ("carbonStored", .num carbonStored),
            ("co2Sequestrated", .num co2Sequestrated)]),
          ("ecosystemServices", .obj
            [("stormwaterInterceptedLiters", .num storm),
             ("airPollutionRemovedGrams", .num air),
             ("energySavingsIDR", .num energy),
             ("annualMonetaryValue", .obj
               [("total", .num total), ("carbon", .num carbonV),
                ("stormwater", .num stormV), ("airQuality", .num airV),
                ("energy", .num energyV)])])] =>
    match TreeCondition.ofStr condStr, ProximityToBuilding.ofStr proxStr with
    | some condition, some proximityToBuilding =>
        some
          { id := id
            species := species
            dbh := dbh
            height := height
            condition := condition
            proximityToBuilding := proximityToBuilding
            notes := notes
            photo := photo
            latitude := latitude
            longitude := longitude
            inventoryDate := date
            carbon :=
              { biomass := biomass
                carbonStored := carbonStored
                co2Sequestrated := co2Sequestrated }
            ecosystemServices :=
              { stormwaterInterceptedLiters := storm
                airPollutionRemovedGrams := air
                energySavingsIDR := energy
                annualMonetaryValue :=
                  { total := total
                    carbon := carbonV
                    stormwater := stormV
                    airQuality := airV
                    energy := energyV } } }
    | _, _ => none
  | _ => none

/-- Element-wise decoding of a persisted array of tree records. -/
def decodeTreeList : List Json → Option (List TreeData)
  | [] => some []
  | j :: rest =>
    match decodeTree j, decodeTreeList rest with
    | some t, some ts => some (t :: ts)
    | _, _ => none

/-- The persist effect (`src/App.tsx` lines 195-201):
`localStorage.setItem('treeInventoryData', JSON.stringify(trees))`.
Modelled from the spec: `JSON.stringify` / `JSON.parse` are browser
built-ins that round-trip exactly (spec section 6, "full JSON-serialized
tree collection"), so the stored string is modelled by the JSON document
it parses back to. -/
def persistTrees (trees : List TreeData) : StoredValue :=
  .parsed (.arr (trees.map encodeTree))

/-- The `trees` lazy initializer (`src/App.tsx` lines 179-193): a parsed
array is returned, anything else (absent key, unparsable string, non-array
document) falls back to `initialTrees`.  The source returns the parsed
array through an unchecked type assertion; the model decodes each element
back into `TreeData`, which agrees with the source on every document
produced by `JSON.stringify` of a `TreeData[]`. -/
def loadTrees : StoredValue → List TreeData
  | .parsed (.arr items) => (decodeTreeList items).getD initialTrees
  | _ => initialTrees

/-- All three `CarbonMetrics` components are non-negative. -/
def carbonNonneg (m : CarbonMetrics) : Prop :=
  0 ≤ m.biomass ∧ 0 ≤ m.carbonStored ∧ 0 ≤ m.co2Sequestrated

/-- Componentwise order on `CarbonMetrics`. -/
def carbonLe (m m' : CarbonMetrics) : Prop :=
  m.biomass ≤ m'.biomass ∧ m.carbonStored ≤ m'.carbonStored ∧
  m.co2Sequestrated ≤ m'.co2Sequestrated

/-- All eight numeric `EcosystemServices` components are non-negative. -/
def ecoNonneg (e : EcosystemServices) : Prop :=
  0 ≤ e.stormwaterInterceptedLiters ∧ 0 ≤ e.airPollutionRemovedGrams ∧
  0 ≤ e.energySavingsIDR ∧ 0 ≤ e.annualMonetaryValue.total ∧
  0 ≤ e.annualMonetaryValue.carbon ∧ 0 ≤ e.annualMonetaryValue.stormwater ∧
  0 ≤ e.annualMonetaryValue.airQuality ∧ 0 ≤ e.annualMonetaryValue.energy

/-- Componentwise order on `EcosystemServices`. -/
def ecoLe (e e' : EcosystemServices) : Prop :=
  e.stormwaterInterceptedLiters ≤ e'.stormwaterInterceptedLiters ∧
  e.airPollutionRemovedGrams ≤ e'.airPollutionRemovedGrams ∧
  e.energySavingsIDR ≤ e'.energySavingsIDR ∧
  e.annualMonetaryValue.total ≤ e'.annualMonetaryValue.total ∧
  e.annualMonetaryValue.carbon ≤ e'.annualMonetaryValue.carbon ∧
  e.annualMonetaryValue.stormwater ≤ e'.annualMonetaryValue.stormwater ∧
  e.annualMonetaryValue.airQuality ≤ e'.annualMonetaryValue.airQuality ∧
  e.annualMonetaryValue.energy ≤ e'.annualMonetaryValue.energy

/-- A concrete submitted form record, used for concrete instantiations. -/
def sampleNewTree : NewTreeData :=
  { species := "Jati", dbh := 30, height := 12,
    condition := .HEALTHY, proximityToBuilding := .Near,
    notes := "catatan", photo := "foto", latitude := 3, longitude := 4,
    inventoryDate := "2024-06-01T00:00:00.000Z" }

/-- A concrete bulk-upload iteration environment in which every external
call succeeds, used for concrete instantiations. -/
def sampleEnv : BulkFileEnv :=
  { name := "pohon1.jpg"
    compressResult := .ok "fotodata"
    analysisResult := .ok (some
      { species := "Jati", latitude := 3, longitude := 4,
        condition := .HEALTHY, estimatedDbh := 30, estimatedHeight := 12 })
    geo := .error "akses lokasi ditolak"
    freshId := 101
    inventoryDate := "2024-06-01T00:00:00.000Z" }

/-- The record `processFile sampleEnv` produces. -/
def sampleBulkTree : TreeData :=
  { id := 101, species := "Jati", dbh := 30, height := 12,
    condition := .HEALTHY, proximityToBuilding := .NoneP,
    notes := "Ditambahkan melalui unggahan massal.", photo := "fotodata",
    latitude := 3, longitude := 4,
    inventoryDate := "2024-06-01T00:00:00.000Z",
    carbon := calculateCarbonMetrics 30 12 .HEALTHY,
    ecosystemServices := calculateEcosystemServices 30 .NoneP .HEALTHY }

/-- A concrete bulk-upload iteration environment whose image compression
rejects, used for concrete instantiations. -/
def failEnv : BulkFileEnv :=
  { name := "rusak.jpg"
    compressResult := .error "kegagalan kompresi"
    analysisResult := .ok none
    geo := .error "akses lokasi ditolak"
    freshId := 102
    inventoryDate := "2024-06-01T00:00:00.000Z" }

/-- A concrete stored record, used for concrete instantiations. -/
def sampleTree : TreeData :=
  createTree 1 "Jati" 60 25 .HEALTHY .Near "catatan" "oak" 3 4
    "2023-10-26T10:00:00Z"

/-- `sampleTree` after an edit that keeps its identifier. -/
def sampleUpdate : TreeData :=
  { sampleTree with species := "Jati Besar", dbh := 61 }

/-- A record the `try` block of a bulk-upload iteration returns always has
its derived fields computed by the estimator from its own measurements. -/
theorem processFile_ok_consistent (env : BulkFileEnv) (t : TreeData)
    (h : processFile env = .ok t) : derivedConsistent t := by
  unfold processFile at h
  repeat' split at h
  all_goals try (cases h)
  all_goals exact ⟨rfl, rfl⟩

/-- One bulk-upload iteration only adds estimator-consistent records. -/
theorem bulkStep_mem (st : List TreeData × BulkUploadProgress)
    (env : BulkFileEnv) (x : TreeData) (hx : x ∈ (bulkStep st env).1) :
    x ∈ st.1 ∨ derivedConsistent x := by
  unfold bulkStep at hx
  split at hx
  next t heq =>
    simp only at hx
    rcases List.mem_cons.mp hx with h | h
    · exact Or.inr (h ▸ processFile_ok_consistent env t heq)
    · exact Or.inl h
  next e heq =>
    exact Or.inl hx

/-- The bulk-upload loop only adds estimator-consistent records. -/
theorem foldl_bulkStep_mem (files : List BulkFileEnv) :
    ∀ st x, x ∈ (files.foldl bulkStep st).1 →
      x ∈ st.1 ∨ derivedConsistent x := by
  induction files with
  | nil => intro st x hx; exact Or.inl hx
  | cons f rest ih =>
      intro st x hx
      rcases ih (bulkStep st f) x hx with h | h
      · exact bulkStep_mem st f x h
      · exact Or.inr h

/-- `decodeTree` inverts `encodeTree`. -/
theorem decodeTree_encodeTree (t : TreeData) :
    decodeTree (encodeTree t) = some t := by
  rcases t with ⟨id, sp, dbh, h, cond, prox, notes, photo, lat, lon, date,
    ⟨b, cs, co⟩, ⟨sw, air, en, ⟨tot, cv, sv, av, ev⟩⟩⟩
  cases cond <;> cases prox <;> rfl

/-- `decodeTreeList` inverts element-wise encoding. -/
theorem decodeTreeList_encode (l : List TreeData) :
    decodeTreeList (l.map encodeTree) = some l := by
  induction l with
  | nil => rfl
  | cons t rest ih => simp [decodeTreeList, decodeTree_encodeTree, ih]

/-- The health factor is never negative. -/
theorem healthFactor_nonneg (c : TreeCondition) : 0 ≤ healthFactor c := by
  cases c <;> norm_num [healthFactor]

/-- The energy-savings rate is never negative. -/
theorem energyRate_nonneg (p : ProximityToBuilding) : 0 ≤ energyRate p := by
  cases p <;> norm_num [energyRate]

/-- All carbon components are non-negative, for every input. -/
theorem carbon_nonneg_aux (dbh height : ℚ) (c : TreeCondition) :
    carbonNonneg (calculateCarbonMetrics dbh height c) := by
  have hd : (0:ℚ) ≤ dbh ⊔ 0 := le_max_right _ _
  have hh : (0:ℚ) ≤ height ⊔ 0 := le_max_right _ _
  have hf := healthFactor_nonneg c
  have hb : (0:ℚ) ≤ 1/4 * (dbh ⊔ 0)^2 * (height ⊔ 0) * healthFactor c := by
    have h1 : (0:ℚ) ≤ 1/4 * (dbh ⊔ 0)^2 := by positivity
    exact mul_nonneg (mul_nonneg h1 hh) hf
  refine ⟨hb, ?_, ?_⟩
  · exact mul_nonneg (by norm_num) hb
  · exact mul_nonneg (by norm_num) (mul_nonneg (by norm_num) hb)

/-- The carbon components are monotone in dbh and height. -/
theorem carbon_mono_aux (dbh height dbh' height' : ℚ) (c : TreeCondition)
    (hd : dbh ≤ dbh') (hh : height ≤ height') :
    carbonLe (calculateCarbonMetrics dbh height c)
      (calculateCarbonMetrics dbh' height' c) := by
  have h1 : (dbh ⊔ 0) ≤ (dbh' ⊔ 0) := max_le_max hd le_rfl
  have h2 : (height ⊔ 0) ≤ (height' ⊔ 0) := max_le_max hh le_rfl
  have h0 : (0:ℚ) ≤ dbh ⊔ 0 := le_max_right _ _
  have h0' : (0:ℚ) ≤ height ⊔ 0 := le_max_right _ _
  have hf := healthFactor_nonneg c
  have hb : 1/4 * (dbh ⊔ 0)^2 * (height ⊔ 0) * healthFactor c
      ≤ 1/4 * (dbh' ⊔ 0)^2 * (height' ⊔ 0) * healthFactor c := by
    have hsq : (dbh ⊔ 0)^2 ≤ (dbh' ⊔ 0)^2 :=
      pow_le_pow_left₀ h0 h1 2
    gcongr
  refine ⟨hb, ?_, ?_⟩
  · exact mul_le_mul_of_nonneg_left hb (by norm_num)
  · exact mul_le_mul_of_nonneg_left
      (mul_le_mul_of_nonneg_left hb (by norm_num)) (by norm_num)

/-- All ecosystem-service components are non-negative, for every input. -/
theorem eco_nonneg_aux (dbh : ℚ) (p : ProximityToBuilding)
    (c : TreeCondition) :
    ecoNonneg (calculateEcosystemServices dbh p c) := by
  have hd : (0:ℚ) ≤ dbh ⊔ 0 := le_max_right _ _
  have hf := healthFactor_nonneg c
  have her := energyRate_nonneg p
  have hsw : (0:ℚ) ≤ 60 * (dbh ⊔ 0) * healthFactor c :=
    mul_nonneg (mul_nonneg (by norm_num) hd) hf
  have hair : (0:ℚ) ≤ 12 * (dbh ⊔ 0) * healthFactor c :=
    mul_nonneg (mul_nonneg (by norm_num) hd) hf
  have hen : (0:ℚ) ≤ energyRate p * (dbh ⊔ 0) * healthFactor c :=
    mul_nonneg (mul_nonneg her hd) hf
  have hcv : (0:ℚ) ≤ 1500 * (dbh ⊔ 0) * healthFactor c :=
    mul_nonneg (mul_nonneg (by norm_num) hd) hf
  have hsv : (0:ℚ) ≤ 25 * (60 * (dbh ⊔ 0) * healthFactor c) :=
    mul_nonneg (by norm_num) hsw
  have hav : (0:ℚ) ≤ 110 * (12 * (dbh ⊔ 0) * healthFactor c) :=
    mul_nonneg (by norm_num) hair
  exact ⟨hsw, hair, hen,
    add_nonneg (add_nonneg (add_nonneg hcv hsv) hav) hen, hcv, hsv, hav, hen⟩

/-- The ecosystem-service components are monotone in dbh. -/
theorem eco_mono_aux (dbh dbh' : ℚ) (p : ProximityToBuilding)
    (c : TreeCondition) (hd : dbh ≤ dbh') :
    ecoLe (calculateEcosystemServices dbh p c)
      (calculateEcosystemServices dbh' p c) := by
  have h1 : (dbh ⊔ 0) ≤ (dbh' ⊔ 0) := max_le_max hd le_rfl
  have hf := healthFactor_nonneg c
  have her := energyRate_nonneg p
  have key : ∀ k : ℚ, 0 ≤ k →
      k * (dbh ⊔ 0) * healthFactor c ≤ k * (dbh' ⊔ 0) * healthFactor c := by
    intro k hk
    exact mul_le_mul_of_nonneg_right
      (mul_le_mul_of_nonneg_left h1 hk) hf
  refine ⟨key 60 (by norm_num), key 12 (by norm_num), key _ her, ?_,
    key 1500 (by norm_num), ?_, ?_, key _ her⟩
  · exact add_le_add (add_le_add (add_le_add (key 1500 (by norm_num))
      (mul_le_mul_of_nonneg_left (key 60 (by norm_num)) (by norm_num)))
      (mul_le_mul_of_nonneg_left (key 12 (by norm_num)) (by norm_num)))
      (key _ her)
  · exact mul_le_mul_of_nonneg_left (key 60 (by norm_num)) (by norm_num)
  · exact mul_le_mul_of_nonneg_left (key 12 (by norm_num)) (by norm_num)

/-- Non-positive measurements clamp the carbon output to zero. -/
theorem carbon_degenerate_aux (dbh height : ℚ) (c : TreeCondition)
    (h : dbh ≤ 0 ∨ height ≤ 0) :
    calculateCarbonMetrics dbh height c =
      { biomass := 0, carbonStored := 0, co2Sequestrated := 0 } := by
  unfold calculateCarbonMetrics
  rcases h with h | h
  · rw [max_eq_right h]
    simp
  · rw [max_eq_right h]
    simp

/-- A non-positive dbh clamps the ecosystem-service output to zero. -/
theorem eco_degenerate_aux (dbh : ℚ) (p : ProximityToBuilding)
    (c : TreeCondition) (h : dbh ≤ 0) :
    calculateEcosystemServices dbh p c =
      { stormwaterInterceptedLiters := 0, airPollutionRemovedGrams := 0,
        energySavingsIDR := 0,
        annualMonetaryValue :=
          { total := 0, carbon := 0, stormwater := 0, airQuality := 0,
            energy := 0 } } := by
  unfold calculateEcosystemServices
  rw [max_eq_right h]
  simp

/-- Per-iteration bookkeeping of the bulk-upload progress counters. -/
theorem bulkStep_counts (st : List TreeData × BulkUploadProgress)
    (env : BulkFileEnv) :
    (bulkStep st env).2.processed = st.2.processed + 1 ∧
    (bulkStep st env).2.successes + (bulkStep st env).2.failures.length
      = st.2.successes + st.2.failures.length + 1 ∧
    (bulkStep st env).2.total = st.2.total ∧
    (bulkStep st env).1.length + st.2.successes
      = st.1.length + (bulkStep st env).2.successes := by
  unfold bulkStep
  split <;> simp <;> omega

/-- Loop invariant for the bulk-upload progress counters. -/
theorem foldl_bulk_counts (files : List BulkFileEnv) :
    ∀ st : List TreeData × BulkUploadProgress,
      (files.foldl bulkStep st).2.processed = st.2.processed + files.length ∧
      (files.foldl bulkStep st).2.successes
          + (files.foldl bulkStep st).2.failures.length
        = st.2.successes + st.2.failures.length + files.length ∧
      (files.foldl bulkStep st).2.total = st.2.total ∧
      (files.foldl bulkStep st).1.length + st.2.successes
        = st.1.length + (files.foldl bulkStep st).2.successes := by
  induction files with
  | nil => intro st; simp
  | cons f rest ih =>
      intro st
      obtain ⟨p1, p2, p3, p4⟩ := ih (bulkStep st f)
      obtain ⟨q1, q2, q3, q4⟩ := bulkStep_counts st f
      simp only [List.foldl_cons, List.length_cons]
      refine ⟨by omega, by omega, by omega, by omega⟩

/-- C1: every record placed in the inventory by add, update, bulk import or
the seed dataset has its stored carbon and ecosystemServices fields equal
to the estimator applied to that record's own measurement fields; records
an operation leaves in the collection are either untouched previous
records or freshly recomputed ones. -/
theorem derived_fields_recomputed
    (nd : NewTreeData) (fid : ℚ) (ts : List TreeData) (u : TreeData)
    (files : List BulkFileEnv) (id : ℚ) (sp : String) (dbh height : ℚ)
    (cond : TreeCondition) (prox : ProximityToBuilding)
    (notes seed : String) (lat lon : ℚ) (date : String) :
    (∀ x ∈ handleAddTree nd fid ts, x ∈ ts ∨ derivedConsistent x) ∧
    (∀ x ∈ handleUpdateTree u ts, x ∈ ts ∨ derivedConsistent x) ∧
    (∀ x ∈ (handleBulkUpload files ts).1, x ∈ ts ∨ derivedConsistent x) ∧
    derivedConsistent
      (createTree id sp dbh height cond prox notes seed lat lon date) ∧
    (∀ x ∈ initialTrees, derivedConsistent x) := by
  refine ⟨?_, ?_, ?_, ⟨rfl, rfl⟩, ?_⟩
  · intro x hx
    rcases List.mem_cons.mp hx with h | h
    · exact Or.inr (h ▸ ⟨rfl, rfl⟩)
    · exact Or.inl h
  · intro x hx
    unfold handleUpdateTree at hx
    simp only [List.mem_map] at hx
    obtain ⟨t, ht, hft⟩ := hx
    by_cases hid : t.id = (updateFinalTree u).id
    · rw [if_pos hid] at hft
      exact Or.inr (hft ▸ ⟨rfl, rfl⟩)
    · rw [if_neg hid] at hft
      exact Or.inl (hft ▸ ht)
  · exact fun x hx => foldl_bulkStep_mem files _ x hx
  · intro x hx
    simp only [initialTrees, List.mem_cons, List.not_mem_nil, or_false] at hx
    rcases hx with h | h | h <;> exact h ▸ ⟨rfl, rfl⟩

/-- Witness for C1 at a concrete added record. -/
theorem derived_fields_recomputed_witness :
    derivedConsistent (mkNewTree sampleNewTree 7) := by
  have h := derived_fields_recomputed sampleNewTree 7 [] sampleTree []
    1 "Jati" 60 25 .HEALTHY .Near "catatan" "oak" 3 4 "2023-10-26T10:00:00Z"
  rcases h.1 (mkNewTree sampleNewTree 7) (List.mem_cons_self _ _)
    with hmem | hc
  · exact absurd hmem (List.not_mem_nil _)
  · exact hc

/-- C2: every numeric component of the estimator output is non-negative
and monotonically non-decreasing in dbh and height for a fixed condition
and proximity, and out-of-range (non-positive) inputs produce the
degenerate zero-clamped output rather than a failure. -/
theorem estimator_nonneg_monotone_clamped
    (dbh height dbh' height' : ℚ) (cond : TreeCondition)
    (prox : ProximityToBuilding) (hd : dbh ≤ dbh') (hh : height ≤ height') :
    carbonNonneg (calculateCarbonMetrics dbh height cond) ∧
    ecoNonneg (calculateEcosystemServices dbh prox cond) ∧
    carbonLe (calculateCarbonMetrics dbh height cond)
      (calculateCarbonMetrics dbh' height' cond) ∧
    ecoLe (calculateEcosystemServices dbh prox cond)
      (calculateEcosystemServices dbh' prox cond) ∧
    (dbh ≤ 0 ∨ height ≤ 0 → calculateCarbonMetrics dbh height cond =
      { biomass := 0, carbonStored := 0, co2Sequestrated := 0 }) ∧
    (dbh ≤ 0 → calculateEcosystemServices dbh prox cond =
      { stormwaterInterceptedLiters := 0, airPollutionRemovedGrams := 0,
        energySavingsIDR := 0,
        annualMonetaryValue :=
          { total := 0, carbon := 0, stormwater := 0, airQuality := 0,
            energy := 0 } }) :=
  ⟨carbon_nonneg_aux dbh height cond, eco_nonneg_aux dbh prox cond,
   carbon_mono_aux dbh height dbh' height' cond hd hh,
   eco_mono_aux dbh dbh' prox cond hd,
   carbon_degenerate_aux dbh height cond,
   eco_degenerate_aux dbh prox cond⟩

/-- Witness for C2 at dbh 3 ≤ 5 and height 2 ≤ 7. -/
theorem estimator_nonneg_monotone_clamped_witness :
    (3:ℚ) ≤ 5 ∧ (2:ℚ) ≤ 7 ∧
    (carbonNonneg (calculateCarbonMetrics 3 2 TreeCondition.HEALTHY) ∧
     ecoNonneg (calculateEcosystemServices 3 ProximityToBuilding.Near
       TreeCondition.HEALTHY) ∧
     carbonLe (calculateCarbonMetrics 3 2 TreeCondition.HEALTHY)
       (calculateCarbonMetrics 5 7 TreeCondition.HEALTHY) ∧
     ecoLe (calculateEcosystemServices 3 ProximityToBuilding.Near
         TreeCondition.HEALTHY)
       (calculateEcosystemServices 5 ProximityToBuilding.Near
         TreeCondition.HEALTHY) ∧
     ((3:ℚ) ≤ 0 ∨ (2:ℚ) ≤ 0 →
       calculateCarbonMetrics 3 2 TreeCondition.HEALTHY =
         { biomass := 0, carbonStored := 0, co2Sequestrated := 0 }) ∧
     ((3:ℚ) ≤ 0 →
       calculateEcosystemServices 3 ProximityToBuilding.Near
           TreeCondition.HEALTHY =
         { stormwaterInterceptedLiters := 0, airPollutionRemovedGrams := 0,
           energySavingsIDR := 0,
           annualMonetaryValue :=
             { total := 0, carbon := 0, stormwater := 0, airQuality := 0,
               energy := 0 } })) :=
  ⟨by norm_num, by norm_num,
   estimator_nonneg_monotone_clamped 3 2 5 7 TreeCondition.HEALTHY
     ProximityToBuilding.Near (by norm_num) (by norm_num)⟩

/-- C3: the estimator is pure and deterministic, and updating a record
whose measurements are unchanged (so its derived fields already agree with
the estimator) leaves the record, and the whole collection, unchanged. -/
theorem estimator_pure_update_idempotent
    (dbh height : ℚ) (cond : TreeCondition) (prox : ProximityToBuilding)
    (u : TreeData) (ts : List TreeData) (hu : derivedConsistent u) :
    calculateCarbonMetrics dbh height cond =
      calculateCarbonMetrics dbh height cond ∧
    calculateEcosystemServices dbh prox cond =
      calculateEcosystemServices dbh prox cond ∧
    updateFinalTree u = u ∧
    handleUpdateTree u (handleUpdateTree u ts) = handleUpdateTree u ts := by
  obtain ⟨h1, h2⟩ := hu
  refine ⟨rfl, rfl, ?_, ?_⟩
  · unfold updateFinalTree
    rw [← h1, ← h2]
  · unfold handleUpdateTree
    rw [List.map_map]
    refine List.map_congr_left ?_
    intro t _
    by_cases hid : t.id = (updateFinalTree u).id
    · simp [hid]
    · simp [hid]

/-- Witness for C3 at a concrete consistent record. -/
theorem estimator_pure_update_idempotent_witness :
    derivedConsistent sampleTree ∧
    (calculateCarbonMetrics 3 4 TreeCondition.HEALTHY =
       calculateCarbonMetrics 3 4 TreeCondition.HEALTHY ∧
     calculateEcosystemServices 3 ProximityToBuilding.Far
         TreeCondition.HEALTHY =
       calculateEcosystemServices 3 ProximityToBuilding.Far
         TreeCondition.HEALTHY ∧
     updateFinalTree sampleTree = sampleTree ∧
     handleUpdateTree sampleTree (handleUpdateTree sampleTree []) =
       handleUpdateTree sampleTree []) :=
  ⟨⟨rfl, rfl⟩,
   estimator_pure_update_idempotent 3 4 TreeCondition.HEALTHY
     ProximityToBuilding.Far sampleTree [] ⟨rfl, rfl⟩⟩

/-- C4: add builds a record from the submitted fields, assigns the fresh
identifier, fills both derived fields via the estimator and prepends it,
leaving the existing records in order; a successful bulk-import iteration
also prepends its record. -/
theorem add_assigns_prepends (nd : NewTreeData) (fid : ℚ)
    (ts : List TreeData) (env : BulkFileEnv) (t : TreeData)
    (st : List TreeData × BulkUploadProgress)
    (hok : processFile env = .ok t) :
    handleAddTree nd fid ts = mkNewTree nd fid :: ts ∧
    (mkNewTree nd fid).id = fid ∧
    (mkNewTree nd fid).species = nd.species ∧
    (mkNewTree nd fid).dbh = nd.dbh ∧
    (mkNewTree nd fid).height = nd.height ∧
    (mkNewTree nd fid).condition = nd.condition ∧
    (mkNewTree nd fid).proximityToBuilding = nd.proximityToBuilding ∧
    (mkNewTree nd fid).notes = nd.notes ∧
    derivedConsistent (mkNewTree nd fid) ∧
    (bulkStep st env).1 = t :: st.1 := by
  refine ⟨rfl, rfl, rfl, rfl, rfl, rfl, rfl, rfl, ⟨rfl, rfl⟩, ?_⟩
  unfold bulkStep
  rw [hok]

/-- Witness for C4 at a concrete form record and a concrete successful
bulk-import iteration. -/
theorem add_assigns_prepends_witness :
    processFile sampleEnv = Except.ok sampleBulkTree ∧
    handleAddTree sampleNewTree 7 [] = [mkNewTree sampleNewTree 7] ∧
    (bulkStep ([], { total := 1, processed := 0, successes := 0,
                     failures := [] }) sampleEnv).1 = [sampleBulkTree] := by
  have hok : processFile sampleEnv = Except.ok sampleBulkTree := by
    simp [processFile, sampleEnv, sampleBulkTree]
  have h := add_assigns_prepends sampleNewTree 7 [] sampleEnv sampleBulkTree
    ([], { total := 1, processed := 0, successes := 0, failures := [] }) hok
  exact ⟨hok, h.1, h.2.2.2.2.2.2.2.2.2⟩

/-- C5: update preserves the collection length, leaves every record whose
identifier differs unchanged at its index, and puts the recomputed record
at exactly the index where the matching identifier stood. -/
theorem update_frame (u : TreeData) (ts : List TreeData) :
    (handleUpdateTree u ts).length = ts.length ∧
    (∀ (i : ℕ) (t : TreeData), ts[i]? = some t → t.id ≠ u.id →
      (handleUpdateTree u ts)[i]? = some t) ∧
    (∀ (i : ℕ) (t : TreeData), ts[i]? = some t → t.id = u.id →
      (handleUpdateTree u ts)[i]? = some (updateFinalTree u)) := by
  have hid : (updateFinalTree u).id = u.id := rfl
  refine ⟨by simp [handleUpdateTree], ?_, ?_⟩
  · intro i t hget hne
    unfold handleUpdateTree
    simp [List.getElem?_map, hget, hid, hne]
  · intro i t hget heq
    unfold handleUpdateTree
    simp [List.getElem?_map, hget, hid, heq]

/-- Witness for C5 at a one-record collection edited in place. -/
theorem update_frame_witness :
    ([sampleTree] : List TreeData)[0]? = some sampleTree ∧
    sampleTree.id = sampleUpdate.id ∧
    (handleUpdateTree sampleUpdate [sampleTree])[0]? =
      some (updateFinalTree sampleUpdate) ∧
    (handleUpdateTree sampleUpdate [sampleTree]).length = 1 :=
  ⟨rfl, rfl,
   (update_frame sampleUpdate [sampleTree]).2.2 0 sampleTree rfl rfl,
   (update_frame sampleUpdate [sampleTree]).1⟩

/-- C6: persisting the whole collection and reloading it yields the same
sequence of records in the same order. -/
theorem persist_load_roundtrip (ts : List TreeData) :
    loadTrees (persistTrees ts) = ts := by
  simp [loadTrees, persistTrees, decodeTreeList_encode]

/-- C7: when the stored value is absent, fails to parse, or parses to a
non-array document, load returns the built-in seed dataset and never
throws. -/
theorem load_falls_back_to_seed (raw : String) (j : Json)
    (hna : ∀ items, j ≠ Json.arr items) :
    loadTrees StoredValue.absent = initialTrees ∧
    loadTrees (StoredValue.malformed raw) = initialTrees ∧
    loadTrees (StoredValue.parsed j) = initialTrees := by
  refine ⟨rfl, rfl, ?_⟩
  cases j with
  | arr items => exact absurd rfl (hna items)
  | _ => rfl

/-- Witness for C7 at a concrete unparsable string and a non-array
document. -/
theorem load_falls_back_to_seed_witness :
    loadTrees StoredValue.absent = initialTrees ∧
    loadTrees (StoredValue.malformed "bukan json") = initialTrees ∧
    loadTrees (StoredValue.parsed Json.null) = initialTrees :=
  load_falls_back_to_seed "bukan json" Json.null
    (fun _ h => Json.noConfusion h)

/-- C8: bulk import of N files ends with processed = N and
successes + failures.length = N, every success prepends its record to the
store (the store grows by exactly the success count), and a failing file
records a (fileName, errorMessage) entry without touching the store, so
the remaining files are still processed. -/
theorem bulk_progress_counters (files : List BulkFileEnv)
    (ts : List TreeData) :
    (handleBulkUpload files ts).2.total = files.length ∧
    (handleBulkUpload files ts).2.processed = files.length ∧
    (handleBulkUpload files ts).2.successes
        + (handleBulkUpload files ts).2.failures.length = files.length ∧
    (handleBulkUpload files ts).1.length
      = ts.length + (handleBulkUpload files ts).2.successes ∧
    (∀ (env : BulkFileEnv) (st : List TreeData × BulkUploadProgress)
        (e : String), processFile env = .error e →
      (bulkStep st env).1 = st.1 ∧
      (bulkStep st env).2.failures = st.2.failures ++
        [(env.name,
          if e = "" then "Terjadi kesalahan tidak diketahui." else e)]) := by
  obtain ⟨p1, p2, p3, p4⟩ := foldl_bulk_counts files
    (ts, { total := files.length, processed := 0, successes := 0,
           failures := [] })
  unfold handleBulkUpload
  simp only [List.length_nil] at p1 p2 p3 p4
  refine ⟨by omega, by omega, by omega, by omega, ?_⟩
  intro env st e h
  unfold bulkStep
  rw [h]
  exact ⟨rfl, rfl⟩

/-- Witness for C8 at a concrete failing file. -/
theorem bulk_progress_counters_witness :
    processFile failEnv = Except.error "kegagalan kompresi" ∧
    (bulkStep ([], { total := 1, processed := 0, successes := 0,
                     failures := [] }) failEnv).1 = [] ∧
    (bulkStep ([], { total := 1, processed := 0, successes := 0,
                     failures := [] }) failEnv).2.failures =
      [("rusak.jpg", "kegagalan kompresi")] := by
  have h : processFile failEnv = Except.error "kegagalan kompresi" := rfl
  obtain ⟨h1, h2⟩ := (bulk_progress_counters [] []).2.2.2.2 failEnv
    ([], { total := 1, processed := 0, successes := 0, failures := [] })
    "kegagalan kompresi" h
  refine ⟨h, h1, ?_⟩
  rw [h2]
  simp [failEnv]

/-- C9: a wrong password leaves the state untouched and returns false; the
admin password sets and persists the session flag; the session check keeps
the flag until logout removes it. -/
theorem login_gate (password : String) (s s2 : AuthState) (b : Bool)
    (hw : password ≠ ADMIN_PASSWORD) :
    handleLogin password s = (s, false) ∧
    handleLogin ADMIN_PASSWORD s2 =
      ({ isLoggedIn := some "true", isAuthenticated := true }, true) ∧
    sessionCheck { isLoggedIn := some "true", isAuthenticated := b }
      = { isLoggedIn := some "true", isAuthenticated := true } ∧
    handleLogout s2 = { isLoggedIn := none, isAuthenticated := false } ∧
    sessionCheck { isLoggedIn := none, isAuthenticated := b }
      = { isLoggedIn := none, isAuthenticated := false } := by
  refine ⟨?_, rfl, ?_, rfl, ?_⟩
  · unfold handleLogin
    rw [if_neg hw]
  · simp [sessionCheck]
  · simp [sessionCheck]

/-- Witness for C9 at a concrete wrong password. -/
theorem login_gate_witness :
    "salah" ≠ ADMIN_PASSWORD ∧
    (handleLogin "salah" { isLoggedIn := none, isAuthenticated := false }
       = ({ isLoggedIn := none, isAuthenticated := false }, false) ∧
     handleLogin ADMIN_PASSWORD
         { isLoggedIn := none, isAuthenticated := false }
       = ({ isLoggedIn := some "true", isAuthenticated := true }, true) ∧
     sessionCheck { isLoggedIn := some "true", isAuthenticated := false }
       = { isLoggedIn := some "true", isAuthenticated := true } ∧
     handleLogout { isLoggedIn := none, isAuthenticated := false }
       = { isLoggedIn := none, isAuthenticated := false } ∧
     sessionCheck { isLoggedIn := none, isAuthenticated := false }
       = { isLoggedIn := none, isAuthenticated := false }) :=
  ⟨by decide,
   login_gate "salah" { isLoggedIn := none, isAuthenticated := false }
     { isLoggedIn := none, isAuthenticated := false } false (by decide)⟩

/-- C10: the computed ecosystemServices of a record never depends on its
height: two adds, updates or seed records differing only in height yield
identical ecosystemServices, because the estimator receives only
(dbh, proximityToBuilding, condition). -/
theorem eco_ignores_height (nd : NewTreeData) (h h' fid : ℚ)
    (u : TreeData) (id dbh ht ht' lat lon : ℚ) (sp notes seed date : String)
    (cond : TreeCondition) (prox : ProximityToBuilding) :
    (mkNewTree { nd with height := h } fid).ecosystemServices
      = (mkNewTree { nd with height := h' } fid).ecosystemServices ∧
    (updateFinalTree { u with height := h }).ecosystemServices
      = (updateFinalTree { u with height := h' }).ecosystemServices ∧
    (createTree id sp dbh ht cond prox notes seed lat lon
        date).ecosystemServices
      = (createTree id sp dbh ht' cond prox notes seed lat lon
        date).ecosystemServices :=
  ⟨rfl, rfl, rfl⟩

end JagaPohon
